import Mathlib

/-!
Verification development for the FinSight transaction pipeline.

The Python sources are shallowly embedded: pure row/line processing becomes
Lean functions on `String`/`List Char`, machine floats are modelled as exact
rationals (all amounts the statements touch are short decimal literals, which
the model renders and parses exactly), the SQLite transactions table becomes a
list of rows with insert-or-replace semantics, and fallible operations return
`Option`/`Except`.  Functions that live in the repository's `models.py`
(absent from the sources; only its callers and tests are available) are
modelled from the specification and marked as such in their doc comments.
-/

/-- Calendar date as produced by the parsers (`datetime.date`). -/
structure PDate where
  year : Nat
  month : Nat
  day : Nat
deriving DecidableEq, Repr

/-- Canonical transaction record (`ExpenseItem`).
Modelled from the spec: `ExpenseItem` is declared in the missing `models.py`;
fields follow §3 "Transaction" (date, optional time, merchant name,
description, signed amount, category, source bank identifier, optional
person/split metadata). -/
structure ExpenseItem where
  date : PDate
  time : Option String := none
  name : Option String := none
  description : String
  amount : ℚ
  category : Option String := none
  bankName : String := ""
  person : Option String := none
  splitDetails : String := ""
deriving DecidableEq, Repr

/-! ### Character and string helpers -/

/-- Digit pair such as "27" to a number. -/
def twoDig (a b : Char) : Nat := (a.toNat - 48) * 10 + (b.toNat - 48)

/-- Value of a digit run. -/
def digitsVal (cs : List Char) : Nat := cs.foldl (fun a c => a * 10 + (c.toNat - 48)) 0

/-- Python `str.strip`: drop whitespace from both ends.  (Implemented on the
character list so that it evaluates by kernel reduction; `String.trim` does
not.) -/
def strTrim (s : String) : String :=
  String.mk (((s.toList.dropWhile Char.isWhitespace).reverse.dropWhile
    Char.isWhitespace).reverse)

/-- Split on a single separator character, keeping empty pieces (Python
`str.split(sep)`). -/
def splitOnCharAux (sep : Char) (cur : List Char) : List Char → List (List Char)
  | [] => [cur.reverse]
  | c :: cs =>
    if c == sep then cur.reverse :: splitOnCharAux sep [] cs
    else splitOnCharAux sep (c :: cur) cs

/-- Python `s.split(sep)` for a one-character separator. -/
def splitOnChar (sep : Char) (s : String) : List String :=
  (splitOnCharAux sep [] s.toList).map String.mk

/-- `sep.join(xs)`. -/
def strJoinSep (sep : String) : List String → String
  | [] => ""
  | [x] => x
  | x :: xs => x ++ sep ++ strJoinSep sep xs

/-- Does `pat` occur at the head of `s`? -/
def leadsList (pat s : List Char) : Bool :=
  match pat, s with
  | [], _ => true
  | _ :: _, [] => false
  | a :: as, b :: bs => a == b && leadsList as bs

/-- Does `pat` occur anywhere inside `s`? -/
def hasSubList (pat : List Char) : List Char → Bool
  | [] => pat.isEmpty
  | c :: cs => leadsList pat (c :: cs) || hasSubList pat cs

/-- Substring test on strings (Python `pat in hay`). -/
def strContainsSub (hay pat : String) : Bool := hasSubList pat.toList hay.toList

/-- Suffix test on strings (Python `str.endswith`). -/
def strHasSuffix (s pat : String) : Bool := leadsList pat.toList.reverse s.toList.reverse

/-- Python `str.upper` (ASCII, which is all these statements contain). -/
def strUpper (s : String) : String := String.mk (s.toList.map Char.toUpper)

/-- Python `str.lower` (ASCII, which is all these statements contain). -/
def strLower (s : String) : String := String.mk (s.toList.map Char.toLower)

/-- Python `str.isdigit`: nonempty and all digits. -/
def pyIsDigit (s : String) : Bool := ¬ s.isEmpty && s.toList.all Char.isDigit

/-- Python truthiness-based default: `s or d`. -/
def pyOrS (s d : String) : String := if s.isEmpty then d else s

/-- `opt or d` where a missing or empty value falls back to the default. -/
def pyOr (o : Option String) (d : String) : String :=
  match o with
  | some s => if s.isEmpty then d else s
  | none => d

/-- Word splitter: accumulates the current word (reversed) while scanning. -/
def wordsAux (cur : List Char) : List Char → List (List Char)
  | [] => if cur.isEmpty then [] else [cur.reverse]
  | c :: cs =>
    if c.isWhitespace then
      if cur.isEmpty then wordsAux [] cs else cur.reverse :: wordsAux [] cs
    else wordsAux (c :: cur) cs

/-- Python `re.split(r'\s+', s)` for an already-stripped `s`: the list of
whitespace-separated words, except that the empty string yields `[""]`. -/
def pySplitWs (s : String) : List String :=
  if s.isEmpty then [""] else (wordsAux [] s.toList).map String.mk

/-- Full match of `^\d+%?$` (used to drop reward/code tokens from descriptions). -/
def isDigitsPct (s : String) : Bool :=
  let cs := s.toList
  let ds := cs.takeWhile Char.isDigit
  let rest := cs.drop ds.length
  ¬ ds.isEmpty && (rest.isEmpty || rest == ['%'])

/-- Leading-digit test: `re.match(r'\d+(?:,\d+)*(?:\.\d{2})?', s)` succeeds iff a
prefix of `s` matches; since every group after `\d+` is optional, that is
exactly "the first character is a digit". -/
def startsWithDigit (s : String) : Bool :=
  match s.toList with
  | c :: _ => c.isDigit
  | [] => false

/-! ### Dates and numbers -/

def isLeap (y : Nat) : Bool := y % 4 == 0 && (y % 100 != 0 || y % 400 == 0)

def daysInMonth (m y : Nat) : Nat :=
  if m == 2 then (if isLeap y then 29 else 28)
  else if m == 4 || m == 6 || m == 9 || m == 11 then 30 else 31

/-- `datetime.date(y, m, d)` construction: `none` on out-of-range fields (the
`ValueError` of `strptime`). -/
def mkDate (d m y : Nat) : Option PDate :=
  if 1 ≤ m ∧ m ≤ 12 ∧ 1 ≤ d ∧ d ≤ daysInMonth m y ∧ 1 ≤ y ∧ y ≤ 9999 then
    some ⟨y, m, d⟩
  else none

/-- Exact subtraction on ℚ.  (`Rat.sub` is `@[irreducible]`; this form, built
from `Rat.divInt`, evaluates by kernel reduction and is provably the same
value.) -/
def ratSub (a b : ℚ) : ℚ :=
  Rat.divInt (a.num * (b.den : ℤ) - b.num * (a.den : ℤ)) ((a.den : ℤ) * (b.den : ℤ))

/-- Exact negation on ℚ in a kernel-reducible form. -/
def ratNeg (a : ℚ) : ℚ := Rat.divInt (-a.num) (a.den : ℤ)

/-- Floor of a nonnegative rational as a natural number. -/
def ratFloorNat (q : ℚ) : ℕ := (q.num.tdiv (q.den : ℤ)).toNat

/-- Python `float(s)` on the plain decimal forms these statements produce:
optional sign, digits, optional fractional part; surrounding whitespace is
stripped; `none` is the `ValueError` case. -/
def pyFloat (s : String) : Option ℚ :=
  let cs := (strTrim s).toList
  let sgn : ℤ := match cs with
    | '-' :: _ => -1
    | _ => 1
  let cs1 := match cs with
    | '-' :: r => r
    | '+' :: r => r
    | r => r
  let ip := cs1.takeWhile Char.isDigit
  let rest := cs1.drop ip.length
  match rest with
  | [] => if ip.isEmpty then none else some (Rat.divInt (sgn * (digitsVal ip : ℤ)) 1)
  | '.' :: r =>
    let fp := r.takeWhile Char.isDigit
    let rest2 := r.drop fp.length
    if rest2.isEmpty ∧ ¬(ip.isEmpty ∧ fp.isEmpty) then
      some (Rat.divInt
        (sgn * ((digitsVal ip : ℤ) * (10 : ℤ) ^ fp.length + (digitsVal fp : ℤ)))
        ((10 : ℤ) ^ fp.length))
    else none
  | _ => none

/-- `float(s or 0)`: the empty string falls back to the integer `0`. -/
def pyFloatOr0 (s : String) : Option ℚ := if s.isEmpty then some 0 else pyFloat s

/-- Fractional digits of `q ∈ [0, 1)`, most significant first; the fuel bounds
the expansion the way `repr` bounds a float's shortest digits. -/
def fracDigitsAux : Nat → ℚ → String
  | 0, _ => ""
  | fuel + 1, q =>
    if q = 0 then ""
    else
      let q10 := Rat.divInt (q.num * 10) (q.den : ℤ)
      let d : Nat := ratFloorNat q10
      toString d ++ fracDigitsAux fuel (ratSub q10 (Rat.divInt (d : ℤ) 1))

/-- Python `str(x)` for a float holding the exact decimal `q`: at least one
fractional digit, no trailing zeros beyond the value's own digits
(`str(384.0) = "384.0"`, `str(31.59) = "31.59"`). -/
def floatRepr (q : ℚ) : String :=
  let sgn := if q < 0 then "-" else ""
  let a := |q|
  let ip : Nat := ratFloorNat a
  let ds := fracDigitsAux 17 (ratSub a (Rat.divInt (ip : ℤ) 1))
  sgn ++ toString ip ++ "." ++ (if ds.isEmpty then "0" else ds)

/-- Left-pad with zeros. -/
def padZ (n width : Nat) : String :=
  let s := toString n
  String.mk (List.replicate (width - s.length) '0') ++ s

/-- Python `str(date)` / `date.isoformat()`: zero-padded `YYYY-MM-DD`. -/
def dateToStr (d : PDate) : String :=
  padZ d.year 4 ++ "-" ++ padZ d.month 2 ++ "-" ++ padZ d.day 2

/-! ### Amazon Pay text-line-PDF parser (`amazon_pay_statement`) -/

/-- Fixed-format date token `\d{2}/\d{2}/\d{4}` at the head of the list;
returns day, month, year and the remaining characters. -/
def matchDMY : List Char → Option (Nat × Nat × Nat × List Char)
  | d1 :: d2 :: '/' :: m1 :: m2 :: '/' :: y1 :: y2 :: y3 :: y4 :: rest =>
    if d1.isDigit && d2.isDigit && m1.isDigit && m2.isDigit &&
       y1.isDigit && y2.isDigit && y3.isDigit && y4.isDigit then
      some (twoDig d1 d2, twoDig m1 m2,
        twoDig y1 y2 * 100 + twoDig y3 y4, rest)
    else none
  | _ => none

/-- `re.search(r'(\d{2}/\d{2}/\d{4})', line)`: leftmost occurrence of the date
token, anywhere in the line. -/
def findDMY : List Char → Option (Nat × Nat × Nat × List Char)
  | [] => none
  | c :: cs =>
    match matchDMY (c :: cs) with
    | some r => some r
    | none => findDMY cs

/-- Modelled from the spec: `clean_amount` from the missing `models.py`
(§4.1 `parse_amount`): strips whitespace, currency symbols and comma grouping
separators, recognizes a trailing credit marker "CR" (negative) and debit
marker "DR" (positive), and fails when no numeric content remains. -/
def clean_amount (s : String) : Option ℚ :=
  let cs := (strTrim s).toList.filter fun c =>
    ¬(c == ',' || c == '₹' || c == '$' || c.isWhitespace)
  if leadsList ['R', 'C'] cs.reverse then
    (pyFloat (String.mk cs.dropLast.dropLast)).map fun q => -q
  else if leadsList ['R', 'D'] cs.reverse then
    pyFloat (String.mk cs.dropLast.dropLast)
  else pyFloat (String.mk cs)

/-- The whitespace-separated fields after the (first) date token of a line,
`re.split(r'\s+', line[date_end:].strip())` in the source. -/
def amazonParts (line : String) : List String :=
  match findDMY (strTrim line).toList with
  | some (_, _, _, rest) => pySplitWs (strTrim (String.mk rest))
  | none => []

/-- Does the (stripped) line contain the date token at all? -/
def lineHasDateTok (line : String) : Bool := (findDMY (strTrim line).toList).isSome

/-- The serial-number field: first token after the date. -/
def amazonSerNo (line : String) : String := (amazonParts line).headD ""

/-- `is_credit = line.upper().endswith(' CR')`; credits are stored negative:
`amount = -abs(amount)` when the credit marker is present. -/
def applyCreditMarker (l : String) (a : ℚ) : ℚ :=
  if strHasSuffix (strUpper l) " CR" = true then -|a| else a

/-- One line of an Amazon Pay statement page (the body of the `for line in
lines` loop of `amazon_pay_statement`): `none` is the `continue` path. -/
def amazonLine (bankName line : String) : Option ExpenseItem :=
  let l := strTrim line
  if l.isEmpty then none
  else
    match findDMY l.toList with
    | none => none
    | some (d, m, y, rest) =>
      match mkDate d m y with
      | none => none
      | some date =>
        let parts := pySplitWs (strTrim (String.mk rest))
        if parts.length < 3 then none
        else
          let serNo := parts.headD ""
          if pyIsDigit serNo = false ∨ serNo.length < 8 then none
          else
            let lastP := parts.getLastD ""
            let crdr := lastP == "CR" || lastP == "DR"
            let amountStr := if crdr then parts.dropLast.getLastD "" else lastP
            if startsWithDigit amountStr = false then none
            else
              match clean_amount amountStr with
              | none => none
              | some a =>
                let descParts :=
                  if crdr then (parts.drop 1).dropLast
                  else ((parts.drop 1).dropLast).dropLast
                let desc0 := strJoinSep " "
                  (descParts.filter fun p => ¬ isDigitsPct p)
                let desc1 :=
                  if (strTrim desc0).isEmpty then strJoinSep " " descParts else desc0
                some { date := date, time := none, description := strTrim desc1,
                       amount := applyCreditMarker l a, bankName := bankName }

/-- The per-page line loop: `continue` on a failed line, keep going. -/
def amazonLines (bankName : String) (ls : List String) : List ExpenseItem :=
  ls.filterMap (amazonLine bankName)

/-- One literal token of the header regex consumed from the head. -/
def dropLit : List Char → List Char → Option (List Char)
  | [], cs => some cs
  | p :: ps, c :: cs => if p == c then dropLit ps cs else none
  | _ :: _, [] => none

/-- `\s+`: at least one whitespace character, consumed greedily. -/
def dropWs1 (cs : List Char) : Option (List Char) :=
  match cs with
  | c :: rest => if c.isWhitespace then some (rest.dropWhile Char.isWhitespace) else none
  | [] => none

/-- The transaction-header regex
`Date\s+SerNo\.\s+Transaction Details\s+Reward\s+Intl\.#\s+Amount`
anchored at the head of the list. -/
def headerAt (cs : List Char) : Bool :=
  (some cs >>= dropLit "Date".toList >>= dropWs1 >>=
    dropLit "SerNo.".toList >>= dropWs1 >>=
    dropLit "Transaction Details".toList >>= dropWs1 >>=
    dropLit "Reward".toList >>= dropWs1 >>=
    dropLit "Intl.#".toList >>= dropWs1 >>=
    dropLit "Amount".toList).isSome

def hasHeaderAux : List Char → Bool
  | [] => false
  | c :: cs => headerAt (c :: cs) || hasHeaderAux cs

/-- `re.search(header_pattern, text)`: the header occurs somewhere in the page
text. -/
def hasHeader (text : String) : Bool := hasHeaderAux text.toList

/-- One page of `amazon_pay_statement`: `page.extract_text()` may yield nothing
(`none` / empty), and a page without the transaction header is skipped
entirely. -/
def amazonPage (bankName : String) (text? : Option String) : List ExpenseItem :=
  match text? with
  | none => []
  | some t =>
    if t.isEmpty then []
    else if hasHeader t then amazonLines bankName (splitOnChar '\n' t) else []

/-- Failure to open a document (wrong password, corrupt file, missing file). -/
inductive OpenError where
  | badPassword
  | corruptFile
deriving DecidableEq, Repr

/-- `amazon_pay_statement` at document level: the whole body is wrapped in
`try/except Exception`, which prints the error and returns the empty list, so
an unopenable document produces a normal empty result. -/
def amazonStatement (bankName : String)
    (doc : Except OpenError (List (Option String))) : List ExpenseItem :=
  match doc with
  | .error _ => []
  | .ok pages => (pages.map (amazonPage bankName)).flatten

/-! ### HDFC credit-card tabular-PDF parser (`hdfc_cred_bill`) -/

/-- Modelled from the spec: `parse_datetime` from the missing `models.py`
(§4.1): accepts a small enumerated set of layouts — day/month/year with a
pipe-delimited time suffix ("DD/MM/YYYY| HH:MM") when `hasTime` is set, the
bare "DD/MM/YYYY" form otherwise — and returns `(none, none)` rather than
raising when the input matches no recognized layout. -/
def parse_datetime (s : String) (hasTime : Bool) : Option PDate × Option String :=
  match matchDMY s.toList with
  | some (d, m, y, rest) =>
    if hasTime then
      match rest with
      | '|' :: ' ' :: h1 :: h2 :: ':' :: n1 :: n2 :: [] =>
        if h1.isDigit ∧ h2.isDigit ∧ n1.isDigit ∧ n2.isDigit ∧
           twoDig h1 h2 < 24 ∧ twoDig n1 n2 < 60 then
          match mkDate d m y with
          | some date => (some date, some (String.mk [h1, h2, ':', n1, n2]))
          | none => (none, none)
        else (none, none)
      | _ => (none, none)
    else
      match rest with
      | [] =>
        match mkDate d m y with
        | some date => (some date, none)
        | none => (none, none)
      | _ => (none, none)
  | none => (none, none)

/-- The regex `(\d{2}/\d{2}/\d{4})\|\s*(\d{2}:\d{2})` anchored at the head:
returns group 1, group 2 and the length of the whole match. -/
def matchDTPat (cs : List Char) : Option (String × String × Nat) :=
  if (matchDMY cs).isSome then
    match cs.drop 10 with
    | '|' :: rest2 =>
      let wsn := (rest2.takeWhile Char.isWhitespace).length
      match rest2.drop wsn with
      | h1 :: h2 :: ':' :: n1 :: n2 :: _ =>
        if h1.isDigit && h2.isDigit && n1.isDigit && n2.isDigit then
          some (String.mk (cs.take 10), String.mk [h1, h2, ':', n1, n2],
            10 + 1 + wsn + 5)
        else none
      | _ => none
    | _ => none
  else none

/-- `re.search` of the date/time regex: leftmost match, returning the two
groups and the end position of the match. -/
def findDTPat : List Char → Nat → Option (String × String × Nat)
  | [], _ => none
  | c :: cs, i =>
    match matchDTPat (c :: cs) with
    | some (g1, g2, len) => some (g1, g2, i + len)
    | none => findDTPat cs (i + 1)

/-- Python `\w` (word character) for the ASCII content of these statements. -/
def isWordChar (c : Char) : Bool := c.isAlphanum || c == '_'

/-- The `\s+l\b` tail of the amount regex. -/
def tailLws (cs : List Char) : Bool :=
  let wsn := (cs.takeWhile Char.isWhitespace).length
  if wsn == 0 then false
  else
    match cs.drop wsn with
    | 'l' :: rest =>
      match rest with
      | [] => true
      | c :: _ => ¬ isWordChar c
    | _ => false

/-- The regex `\bC\s+([\d,]+\.?\d*)\s+l\b` with the leading boundary already
checked, anchored at the head: returns group 1.  The only backtracking point
of the regex is the optional `\.?\d*` (shrinking a greedy digit run can only
expose another digit, never the whitespace the tail needs). -/
def matchAmtAt (cs : List Char) : Option String :=
  match cs with
  | 'C' :: rest =>
    let ws1 := (rest.takeWhile Char.isWhitespace).length
    if ws1 == 0 then none
    else
      let after := rest.drop ws1
      let digs := after.takeWhile fun c => c.isDigit || c == ','
      if digs.isEmpty then none
      else
        let after2 := after.drop digs.length
        match after2 with
        | '.' :: r =>
          let digs2 := r.takeWhile Char.isDigit
          if tailLws (r.drop digs2.length) then
            some (String.mk (digs ++ '.' :: digs2))
          else if tailLws after2 then some (String.mk digs)
          else none
        | _ => if tailLws after2 then some (String.mk digs) else none
  | _ => none

/-- `re.search` of the amount regex: scan left to right, tracking whether the
previous character was a word character (for the `\b` before `C`); returns
group 1 and the start position of the match. -/
def findAmtPat : List Char → Bool → Nat → Option (String × Nat)
  | [], _, _ => none
  | c :: cs, prevWord, i =>
    if prevWord then findAmtPat cs (isWordChar c) (i + 1)
    else
      match matchAmtAt (c :: cs) with
      | some g1 => some (g1, i)
      | none => findAmtPat cs (isWordChar c) (i + 1)

/-- One step of `re.sub(r'\s*\+\s+\d+', '', s)`: a match anchored here, with
the remainder after the consumed text. -/
def matchPlusAt (cs : List Char) : Option (List Char) :=
  let wsn := (cs.takeWhile Char.isWhitespace).length
  match cs.drop wsn with
  | '+' :: r =>
    let ws2 := (r.takeWhile Char.isWhitespace).length
    if ws2 == 0 then none
    else
      let r2 := r.drop ws2
      let ds := r2.takeWhile Char.isDigit
      if ds.isEmpty then none else some (r2.drop ds.length)
  | _ => none

/-- Leftmost, non-overlapping removal of reward markers (`re.sub`). -/
def subPlusAux : Nat → List Char → List Char
  | 0, cs => cs
  | _ + 1, [] => []
  | fuel + 1, c :: cs =>
    match matchPlusAt (c :: cs) with
    | some rest => subPlusAux fuel rest
    | none => c :: subPlusAux fuel cs

/-- `re.sub(r'\s*\+\s+\d+', '', s)`: strips reward patterns such as "+ 4". -/
def subPlusRewards (s : String) : String :=
  String.mk (subPlusAux s.toList.length s.toList)

/-- One extracted table row of `hdfc_cred_bill` (the body of the row loop):
only single-cell rows with a nonempty cell are considered; short rows, rows
without the date/time pattern or without the amount pattern are skipped. -/
def hdfcCredRow (bankName : String) (row : List (Option String)) : Option ExpenseItem :=
  match row with
  | [some cell] =>
    if cell.isEmpty then none
    else
      let full := strTrim cell
      if full.length < 20 then none
      else
        match findDTPat full.toList 0 with
        | none => none
        | some (g1, g2, endIdx) =>
          match parse_datetime (g1 ++ "| " ++ g2) true with
          | (none, _) => none
          | (some date, time) =>
            let remaining := strTrim (String.mk (full.toList.drop endIdx))
            match findAmtPat remaining.toList false 0 with
            | none => none
            | some (amtStr, startIdx) =>
              match pyFloat (String.mk (amtStr.toList.filter fun c => c != ',')) with
              | none => none
              | some amount =>
                let descText := strTrim (String.mk (remaining.toList.take startIdx))
                let description := strTrim (subPlusRewards descText)
                some { date := date, time := time, description := description,
                       amount := amount, bankName := bankName }
  | _ => none

/-- The row loop of one page table: skip-and-continue semantics. -/
def hdfcCredRows (bankName : String) (rows : List (List (Option String))) :
    List ExpenseItem :=
  rows.filterMap (hdfcCredRow bankName)

/-- One page: `page.extract_table()` may return nothing; a nonempty table is
processed from its second row on (`table[1:]`, the header row is skipped). -/
def hdfcCredPage (bankName : String)
    (table? : Option (List (List (Option String)))) : List ExpenseItem :=
  match table? with
  | none => []
  | some [] => []
  | some (_ :: rows) => hdfcCredRows bankName rows

/-- `hdfc_cred_bill` at document level: `pdfplumber.open` is not guarded, so a
document that cannot be opened propagates the error to the caller. -/
def hdfcCredBill (bankName : String)
    (doc : Except OpenError (List (Option (List (List (Option String)))))) :
    Except OpenError (List ExpenseItem) :=
  doc.map fun pages => (pages.map (hdfcCredPage bankName)).flatten

/-! ### Delimited-text parsers (`HDFCStatementParser`, `SBIStatementParser`) -/

/-- A `csv.DictReader` row: header name to cell value. -/
def CsvRow : Type := List (String × String)

/-- `row.get(k)`. -/
def rowGetOpt (row : CsvRow) (k : String) : Option String := List.lookup k row

/-- `row.get(k, dflt)`. -/
def rowGet (row : CsvRow) (k : String) (dflt : String) : String :=
  (List.lookup k row).getD dflt

/-- `datetime.strptime(s, '%d-%m-%Y').date()`: `none` is the `ValueError`. -/
def parseDateDashDMY (s : String) : Option PDate :=
  match splitOnChar '-' s with
  | [ds, ms, ys] =>
    if pyIsDigit ds = true ∧ pyIsDigit ms = true ∧ pyIsDigit ys = true ∧
       1 ≤ ds.length ∧ ds.length ≤ 2 ∧ ms.length ≤ 2 ∧ ys.length = 4 then
      mkDate (digitsVal ds.toList) (digitsVal ms.toList) (digitsVal ys.toList)
    else none
  | _ => none

/-- `datetime.strptime(s, '%Y-%m-%d').date()`: `none` is the `ValueError`. -/
def parseDateIsoYMD (s : String) : Option PDate :=
  match splitOnChar '-' s with
  | [ys, ms, ds] =>
    if pyIsDigit ds = true ∧ pyIsDigit ms = true ∧ pyIsDigit ys = true ∧
       1 ≤ ds.length ∧ ds.length ≤ 2 ∧ ms.length ≤ 2 ∧ ys.length = 4 then
      mkDate (digitsVal ds.toList) (digitsVal ms.toList) (digitsVal ys.toList)
    else none
  | _ => none

/-- `float(credit or 0) - float(debit or 0)` (HDFC bank statement row). -/
def hdfcCsvAmount (credit debit : String) : Option ℚ :=
  match pyFloatOr0 credit, pyFloatOr0 debit with
  | some c, some d => some (ratSub c d)
  | _, _ => none

/-- `float(credit.strip()) if credit.strip() else -float(debit.strip())`
(SBI bank statement row, applied after the `or '0'` defaults). -/
def sbiCsvAmount (credit debit : String) : Option ℚ :=
  if (strTrim credit).isEmpty then (pyFloat (strTrim debit)).map fun q => ratNeg q
  else pyFloat (strTrim credit)

/-- One row of `HDFCStatementParser.parse_file`: `none` is the `continue`
path (missing or unparsable date, unparsable amount). -/
def hdfcCsvRow (bankName : String) (row : CsvRow) : Option ExpenseItem :=
  let dateStr := rowGet row "Date" (rowGet row "Txn Date" "")
  if dateStr.isEmpty then none
  else
    match parseDateDashDMY dateStr with
    | none => none
    | some date =>
      let time := pyOr (rowGetOpt row "Time") "00:00:00"
      let description := rowGet row "Description" (rowGet row "Details" "")
      let debit := rowGet row "Debit" (rowGet row "Dr" "0")
      let credit := rowGet row "Credit" (rowGet row "Cr" "0")
      match hdfcCsvAmount credit debit with
      | none => none
      | some amount =>
        some { date := date, time := some time, description := description,
               amount := amount, bankName := bankName }

/-- The row loop of `HDFCStatementParser.parse_file`. -/
def hdfcCsvRows (bankName : String) (rows : List CsvRow) : List ExpenseItem :=
  rows.filterMap (hdfcCsvRow bankName)

/-- One row of `SBIStatementParser.parse_file`. -/
def sbiCsvRow (bankName : String) (row : CsvRow) : Option ExpenseItem :=
  let dateStr := rowGet row "Txn Date" (rowGet row "Date" "")
  if dateStr.isEmpty then none
  else
    match parseDateIsoYMD dateStr with
    | none => none
    | some date =>
      let time := pyOr (rowGetOpt row "Time") "00:00:00"
      let description := rowGet row "Details" (rowGet row "Description" "")
      let debit := pyOrS (rowGet row "Debit" (rowGet row "Dr" "")) "0"
      let credit := pyOrS (rowGet row "Credit" (rowGet row "Cr" "")) "0"
      match sbiCsvAmount credit debit with
      | none => none
      | some amount =>
        some { date := date, time := some time, description := description,
               amount := amount, bankName := bankName }

/-- The row loop of `SBIStatementParser.parse_file`. -/
def sbiCsvRows (bankName : String) (rows : List CsvRow) : List ExpenseItem :=
  rows.filterMap (sbiCsvRow bankName)

/-- `HDFCStatementParser.parse_file` at file level: a missing file prints a
message and returns the empty list (`none` models `not os.path.exists`). -/
def hdfcParseFile (bankName : String) (file : Option (List CsvRow)) : List ExpenseItem :=
  match file with
  | none => []
  | some rows => hdfcCsvRows bankName rows

/-- `SBIStatementParser.parse_file` at file level. -/
def sbiParseFile (bankName : String) (file : Option (List CsvRow)) : List ExpenseItem :=
  match file with
  | none => []
  | some rows => sbiCsvRows bankName rows

/-! ### Persistence layer (`FinSightDatabase.store_transactions`) -/

/-- One row of the `transactions` table, with the columns the INSERT provides
(the AUTOINCREMENT id is the list position and is not a stored field). -/
structure DbRow where
  bankName : String
  date : String
  time : Option String
  name : String
  description : String
  amount : ℚ
  category : String
  referenceId : String
  importDate : String
deriving DecidableEq, Repr

/-- The natural (dedup) key:
`f"{bank_name}_{transaction.date}_{transaction.description}_{transaction.amount}"`. -/
def referenceId (bankName : String) (t : ExpenseItem) : String :=
  bankName ++ "_" ++ dateToStr t.date ++ "_" ++ t.description ++ "_" ++ floatRepr t.amount

/-- The row the INSERT OR REPLACE statement provides for one transaction. -/
def dbRowOf (bankName importDate : String) (t : ExpenseItem) : DbRow :=
  { bankName := bankName
    date := dateToStr t.date
    time := t.time
    name := pyOr t.name ""
    description := t.description
    amount := t.amount
    category := pyOr t.category "Uncategorized"
    referenceId := referenceId bankName t
    importDate := importDate }

/-- `INSERT OR REPLACE` against `UNIQUE(reference_id)` and
`UNIQUE(bank_name, reference_id) ON CONFLICT REPLACE`: every row whose
`reference_id` collides is deleted and the fresh row is inserted (with a fresh
AUTOINCREMENT id, hence at the end). -/
def upsert (tbl : List DbRow) (r : DbRow) : List DbRow :=
  (tbl.filter fun x => x.referenceId != r.referenceId) ++ [r]

/-- The per-transaction loop of `store_transactions` over prepared rows. -/
def storeRows (tbl : List DbRow) (rs : List DbRow) : List DbRow :=
  rs.foldl upsert tbl

/-- `store_transactions(transactions, bank_name)` acting on the transactions
table (the import-batch log is a separate table and not part of this claim's
state). -/
def storeTransactions (tbl : List DbRow) (ts : List ExpenseItem)
    (bankName importDate : String) : List DbRow :=
  storeRows tbl (ts.map (dbRowOf bankName importDate))

/-- Erase the volatile import timestamp, keeping every stored transaction
field. -/
def stripStamp (r : DbRow) : DbRow := { r with importDate := "" }

/-- The natural-key shape the spec prescribes:
`{bank_identifier}_{date}_{description}_{amount}`. -/
def specNaturalKey (bankId dateS descS amtS : String) : String :=
  bankId ++ "_" ++ dateS ++ "_" ++ descS ++ "_" ++ amtS

/-! ### CSV export (`write_expenses_convert`) -/

def csvHeaderRow : List String :=
  ["Date", "Time", "Name", "Description", "Amount", "Category", "Person", "Split Details"]

/-- The record `write_expenses_convert` builds for one item (a missing
optional field renders as the empty cell). -/
def csvRowOf (t : ExpenseItem) : List String :=
  [dateToStr t.date, t.time.getD "", t.name.getD "", t.description,
   floatRepr t.amount, t.category.getD "", t.person.getD "", t.splitDetails]

/-- `write_expenses_convert` as a file-contents transformer:
`DataFrame.to_csv(path, index=False)` opens the path in write mode, so the
prior contents of the file are discarded, not appended to. -/
def writeExpensesConvert (items : List ExpenseItem)
    (priorContents : List (List String)) : List (List String) :=
  let _ := priorContents
  csvHeaderRow :: items.map csvRowOf

/-! ### Classification engine (`config.py` dictionaries, `models.py` rules) -/

/-- `MERCHANT_NAMES` from `config.py`, in declaration order (iteration order of
a Python dict is insertion order and is semantically significant here). -/
def MERCHANT_NAMES : List (String × List String) :=
  [("Amazon", ["amazon", "amazon.in"]),
   ("Flipkart", ["flipkart"]),
   ("Swiggy", ["swiggy", "instamart"]),
   ("Zomato", ["zomato"]),
   ("Zepto", ["zepto"]),
   ("Uber", ["uber"]),
   ("Ola", ["ola"]),
   ("Airbnb", ["airbnb"]),
   ("Netflix", ["netflix"]),
   ("Spotify", ["spotify"]),
   ("Ikea", ["ikea"]),
   ("ICICI Bank", ["icici", "icici bank"]),
   ("HDFC Bank", ["hdfc", "hdfc bank"]),
   ("SBI Bank", ["sbi", "state bank"]),
   ("Electricity Board", ["electricity", "power bill"]),
   ("Google", ["google", "google play"]),
   ("Apple", ["apple", "app store"]),
   ("OPENAI", ["openai", "chatgpt", "open ai", "chat gpt"]),
   ("Nyka", ["nyka"]),
   ("Souled Store", ["souled store"]),
   ("comet", ["comet"]),
   ("puma", ["puma"]),
   ("dineout", ["dineout"]),
   ("Cult.fit", ["cure fit"])]

/-- `CATEGORIES` from `config.py`, in declaration order. -/
def CATEGORIES : List (String × List String) :=
  [("Shopping", ["amazon", "flipkart", "myntra", "ebay", "nyka", "shoppers stop",
     "souled store", "ikea", "apple", "comet", "puma"]),
   ("Transport", ["uber", "ola", "metro", "bus", "cab"]),
   ("Food and groceries", ["swiggy", "zomato", "restaurant", "pizza", "dominos",
     "mcdonalds", "zepto", "bigbasket", "grocery", "supermarket", "milk",
     "vegetables", "dineout"]),
   ("Entertainment", ["netflix", "spotify", "hotstar", "cinema", "theater"]),
   ("Utilities", ["electricity", "water bill", "gas", "internet", "wifi"]),
   ("Salary", ["salary", "payroll", "credited"]),
   ("Bank Fees", ["atm withdrawal", "bank charge", "overdraft", "fcy", "markup"]),
   ("Healthcare", ["pharmacy", "hospital", "doctor", "medicine", "cult.fit"]),
   ("Education", ["school", "college", "tuition", "course", "openai"]),
   ("Investment", ["mutual fund", "stocks", "crypto", "nifty", "sensex"]),
   ("travel", ["airbnb", "booking.com"])]

/-- Modelled from the spec: `extract_name` from the missing `models.py`
(§4.2 `extract_merchant`): lower-case the description, scan the merchant
dictionary in its configured order, return the first merchant one of whose
trigger substrings occurs in the description, and the empty string when none
match. -/
def extract_name (description : String) : String :=
  let d := strLower description
  match MERCHANT_NAMES.find? (fun e => e.2.any fun trig => strContainsSub d trig) with
  | some e => e.1
  | none => ""

/-- Modelled from the spec: `categorize_transaction` from the missing
`models.py` (§4.2 `categorize`): first a merchant-name shortcut (the merchant
itself present in a category's trigger set, first match in order), then a scan
of the category dictionary against the description with the same
first-match-wins rule, defaulting to the "Uncategorized" sentinel. -/
def categorize_transaction (name : Option String) (description : String) : String :=
  let shortcut :=
    match name with
    | some n =>
      if n.isEmpty then none
      else CATEGORIES.find? fun e : String × List String => e.2.contains (strLower n)
    | none => none
  match shortcut with
  | some e => e.1
  | none =>
    let d := strLower description
    match CATEGORIES.find? (fun e : String × List String =>
        e.2.any fun trig => strContainsSub d trig) with
    | some e => e.1
    | none => "Uncategorized"

/-! ### Helper lemmas -/

/-- A loop that `continue`s over one failed element processes everything else. -/
theorem filterMap_skip {α β : Type} (f : α → Option β) (pre suf : List α) (bad : α)
    (h : f bad = none) :
    (pre ++ bad :: suf).filterMap f = pre.filterMap f ++ suf.filterMap f := by
  simp [List.filterMap_append, List.filterMap_cons, h]

/-- Credit-marked amounts are stored non-positive. -/
theorem applyCreditMarker_nonpos (l : String) (a : ℚ)
    (h : strHasSuffix (strUpper l) " CR" = true) : applyCreditMarker l a ≤ 0 := by
  unfold applyCreditMarker
  rw [if_pos h]
  exact neg_nonpos.mpr (abs_nonneg a)

/-- A row's key collides with no key of `rs`. -/
def keyFree (rs : List DbRow) (x : DbRow) : Bool :=
  rs.all fun r => x.referenceId != r.referenceId

theorem filter_filter_key (T : List DbRow) (p q : DbRow → Bool) :
    (T.filter p).filter q = T.filter fun x => p x && q x := by
  induction T with
  | nil => rfl
  | cons a t ih =>
    by_cases hp : p a
    · by_cases hq : q a <;> simp [List.filter, hp, hq, ih]
    · simp [List.filter, hp, ih]

/-- Closed form of the store loop: the rows of the prior table whose keys
survive, followed by the batch deduplicated to the last row per key. -/
theorem storeRows_closed (rs : List DbRow) :
    ∀ T : List DbRow, storeRows T rs = T.filter (keyFree rs) ++ storeRows [] rs := by
  induction rs with
  | nil =>
    intro T
    have hkf : keyFree [] = fun _ : DbRow => true := funext fun x => rfl
    simp only [storeRows, List.foldl_nil, hkf, List.filter_true, List.append_nil]
  | cons r rs ih =>
    intro T
    have h1 : storeRows T (r :: rs) = storeRows (upsert T r) rs := rfl
    have h2 : storeRows ([] : List DbRow) (r :: rs) = storeRows (upsert [] r) rs := rfl
    rw [h1, h2, ih (upsert T r), ih (upsert [] r)]
    rw [← List.append_assoc]
    congr 1
    show ((T.filter fun x => x.referenceId != r.referenceId) ++ [r]).filter (keyFree rs)
      = T.filter (keyFree (r :: rs)) ++ ([r].filter (keyFree rs))
    rw [List.filter_append, filter_filter_key]
    congr 1

/-- Every stored row comes from the prior table or from the batch. -/
theorem mem_storeRows (x : DbRow) (rs : List DbRow) :
    ∀ T : List DbRow, x ∈ storeRows T rs → x ∈ T ∨ x ∈ rs := by
  induction rs with
  | nil => intro T h; exact Or.inl h
  | cons r rs ih =>
    intro T h
    have h1 : storeRows T (r :: rs) = storeRows (upsert T r) rs := rfl
    rw [h1] at h
    rcases ih (upsert T r) h with hx | hx
    · unfold upsert at hx
      rcases List.mem_append.mp hx with hx | hx
      · exact Or.inl (List.mem_of_mem_filter hx)
      · simp at hx
        subst hx
        exact Or.inr (List.mem_cons_self _ _)
    · exact Or.inr (List.mem_cons_of_mem _ hx)

theorem keyFree_self_false (rs : List DbRow) (x : DbRow) (hx : x ∈ rs) :
    keyFree rs x = false := by
  unfold keyFree
  rw [List.all_eq_false]
  exact ⟨x, hx, by simp⟩

theorem filter_keyFree_dedup (rs : List DbRow) :
    (storeRows [] rs).filter (keyFree rs) = [] := by
  rw [List.filter_eq_nil_iff]
  intro x hx
  rcases mem_storeRows x rs [] hx with h | h
  · cases h
  · rw [keyFree_self_false rs x h]
    simp

/-- Replaying the same batch of rows against the resulting table changes
nothing. -/
theorem storeRows_idem (T : List DbRow) (rs : List DbRow) :
    storeRows (storeRows T rs) rs = storeRows T rs := by
  rw [storeRows_closed rs (storeRows T rs), storeRows_closed rs T]
  rw [List.filter_append, filter_filter_key, filter_keyFree_dedup]
  rw [List.append_nil]
  congr 1
  apply List.filter_congr
  intro x _
  cases h : keyFree rs x <;> simp [h]

theorem strip_filter_comm (T : List DbRow) (k : String) :
    (T.map stripStamp).filter (fun x => x.referenceId != k)
      = (T.filter fun x => x.referenceId != k).map stripStamp := by
  induction T with
  | nil => rfl
  | cons a t ih =>
    cases h : (a.referenceId != k) with
    | true =>
      have h2 : ((stripStamp a).referenceId != k) = true := h
      simp [List.filter_cons, h, h2, ih]
    | false =>
      have h2 : ((stripStamp a).referenceId != k) = false := h
      simp [List.filter_cons, h, h2, ih]

theorem strip_upsert_comm (T : List DbRow) (r : DbRow) :
    (upsert T r).map stripStamp = upsert (T.map stripStamp) (stripStamp r) := by
  unfold upsert
  rw [List.map_append]
  congr 1
  exact (strip_filter_comm T r.referenceId).symm

/-- Erasing the import timestamp commutes with the store loop (the timestamp
never takes part in key comparison). -/
theorem strip_storeRows_comm (rs : List DbRow) :
    ∀ T : List DbRow, (storeRows T rs).map stripStamp
      = storeRows (T.map stripStamp) (rs.map stripStamp) := by
  induction rs with
  | nil => intro T; rfl
  | cons r rs ih =>
    intro T
    have h1 : storeRows T (r :: rs) = storeRows (upsert T r) rs := rfl
    have h2 : storeRows (T.map stripStamp) ((r :: rs).map stripStamp)
        = storeRows (upsert (T.map stripStamp) (stripStamp r)) (rs.map stripStamp) := rfl
    rw [h1, h2, ih (upsert T r), strip_upsert_comm]

theorem strip_rows_of (ts : List ExpenseItem) (bank d : String) :
    (ts.map (dbRowOf bank d)).map stripStamp = ts.map (dbRowOf bank "") := by
  rw [List.map_map]
  rfl

/-! ### Claim theorems -/

/-- C1: the persisted natural key is exactly
`{bank_identifier}_{date}_{description}_{amount}` — the four fields in that
order, joined by single underscores and nothing else; checked both for every
transaction and on a concrete record. -/
theorem c1_natural_key_shape :
    (∀ (bank : String) (t : ExpenseItem),
      referenceId bank t
        = specNaturalKey bank (dateToStr t.date) t.description (floatRepr t.amount))
    ∧ referenceId "hdfc-cred"
        { date := ⟨2025, 10, 27⟩, description := "SWIGGYBENGALURU", amount := 384 }
        = "hdfc-cred_2025-10-27_SWIGGYBENGALURU_384.0" := by
  refine ⟨fun bank t => rfl, ?_⟩
  decide

/-- C2: persistence is idempotent — storing the same transactions a second
time (with any batch timestamps) leaves the transactions table with the same
row count and the same stored field values (everything except the volatile
batch timestamp) as after the first call; collisions replace, they never
append or fail. -/
theorem c2_store_idempotent (ts : List ExpenseItem) (bank d1 d2 : String)
    (tbl : List DbRow) :
    (storeTransactions (storeTransactions tbl ts bank d1) ts bank d2).length
        = (storeTransactions tbl ts bank d1).length
    ∧ (storeTransactions (storeTransactions tbl ts bank d1) ts bank d2).map stripStamp
        = (storeTransactions tbl ts bank d1).map stripStamp := by
  have hmap : ∀ (d : String) (T : List DbRow),
      (storeTransactions T ts bank d).map stripStamp
        = storeRows (T.map stripStamp) (ts.map (dbRowOf bank "")) := by
    intro d T
    unfold storeTransactions
    rw [strip_storeRows_comm, strip_rows_of]
  have key : (storeTransactions (storeTransactions tbl ts bank d1) ts bank d2).map stripStamp
      = (storeTransactions tbl ts bank d1).map stripStamp := by
    rw [hmap d2 (storeTransactions tbl ts bank d1), hmap d1 tbl]
    exact storeRows_idem _ _
  refine ⟨?_, key⟩
  have hl := congrArg List.length key
  simpa using hl

/-- C3 counterexample: the claim's uniform sign convention fails on the code —
the HDFC delimited parser maps the debit-marked row
Date="15-10-2025", Debit="500", Credit="" to amount −500, which is not
strictly positive. -/
theorem c3_cex_debit_not_positive :
    (hdfcCsvRows "HDFC Bank"
        [[("Date", "15-10-2025"), ("Description", "TEST"),
          ("Debit", "500"), ("Credit", "")]]).map (fun i => i.amount) = [-500]
    ∧ ¬ ((0 : ℚ) < -500) := by
  constructor
  · decide
  · norm_num

set_option maxHeartbeats 1600000 in
/-- C3 amended: the sign convention is not uniform across parsers — the
text-line-PDF parser stores credit-marked (" CR") lines with a non-positive
amount, while the delimited-text amount derivations make a debit-only row
strictly negative and a credit-only row strictly positive. -/
theorem c3_signs_not_uniform :
    (∀ (bank line : String) (item : ExpenseItem),
      amazonLine bank line = some item →
      strHasSuffix (strUpper (strTrim line)) " CR" = true → item.amount ≤ 0)
    ∧ hdfcCsvAmount "" "500" = some (-500) ∧ ((-500 : ℚ) < 0)
    ∧ sbiCsvAmount "100" "" = some 100 ∧ ((0 : ℚ) < 100) := by
  refine ⟨?_, by decide, by norm_num, by decide, by norm_num⟩
  intro bank line item h hcr
  unfold amazonLine at h
  by_cases hemp : (strTrim line).isEmpty
  · simp [hemp] at h
  · simp only [hemp, if_false, Bool.false_eq_true] at h
    split at h
    next hfind => simp at h
    next d m y rest hfind =>
      split at h
      next hdate => simp at h
      next date hdate =>
        by_cases hlen : (pySplitWs (strTrim (String.mk rest))).length < 3
        · simp [hlen] at h
        · simp only [hlen, if_false] at h
          by_cases hser : pyIsDigit ((pySplitWs (strTrim (String.mk rest))).headD "") = false ∨
              ((pySplitWs (strTrim (String.mk rest))).headD "").length < 8
          · rw [if_pos hser] at h
            exact Option.noConfusion h
          · rw [if_neg hser] at h
            split at h <;> split at h
            any_goals exact Option.noConfusion h
            all_goals split at h
            any_goals exact Option.noConfusion h
            all_goals obtain rfl := Option.some.inj h
            all_goals exact applyCreditMarker_nonpos (strTrim line) _ hcr

/-- C3 witness: a concrete credit-marked line parsed by the text-line-PDF
parser comes out with amount −100 ≤ 0. -/
theorem c3_signs_not_uniform_witness :
    amazonLine "Amazon Pay" "15/10/2025 12158779277 Refund Credited 0 100.00 CR"
      = some { date := ⟨2025, 10, 15⟩, description := "Refund Credited 100.00",
               amount := -100, bankName := "Amazon Pay" }
    ∧ ({ date := ⟨2025, 10, 15⟩, description := "Refund Credited 100.00",
         amount := -100, bankName := "Amazon Pay" } : ExpenseItem).amount ≤ 0 := by
  refine ⟨by decide, ?_⟩
  exact c3_signs_not_uniform.1 "Amazon Pay"
    "15/10/2025 12158779277 Refund Credited 0 100.00 CR" _ (by decide) (by decide)

/-- C4: the HDFC delimited parser does derive amount = credit − debit
(Debit="500", Credit="" ↦ −500), but the SBI delimited parser turns the same
row into amount 0.0: its `credit or '0'` default replaces the empty credit
with "0", which is truthy, so the negated-debit branch is unreachable and
`float("0")` is stored instead of −500. -/
theorem c4_delimited_amount_eval :
    (hdfcCsvRows "HDFC Bank"
        [[("Date", "15-10-2025"), ("Description", "CARD PAYMENT"),
          ("Debit", "500"), ("Credit", "")]]).map (fun i => i.amount) = [-500]
    ∧ (sbiCsvRows "State Bank of India (SBI)"
        [[("Txn Date", "2025-10-15"), ("Details", "CARD PAYMENT"),
          ("Debit", "500"), ("Credit", "")]]).map (fun i => i.amount) = [0] := by
  exact ⟨by decide, by decide⟩

/-- C5: the text-line-PDF parser accepts a line only if it contains the
fixed-format date token (anywhere in the line), followed by at least three
whitespace-separated fields whose first is a digits-only serial number of
length at least 8; and the date may carry an arbitrary prefix (a line with a
stray "7%" prefix still yields a candidate). -/
theorem c5_line_acceptance :
    (∀ (bank line : String) (item : ExpenseItem),
      amazonLine bank line = some item →
      lineHasDateTok line = true ∧ 3 ≤ (amazonParts line).length ∧
      pyIsDigit (amazonSerNo line) = true ∧ 8 ≤ (amazonSerNo line).length)
    ∧ (amazonLine "Amazon Pay"
        "7% 25/10/2025 12219871867 Swiggy Limited Bangalore IN 5 591.00").isSome = true := by
  refine ⟨?_, by decide⟩
  intro bank line item h
  unfold amazonLine at h
  by_cases hemp : (strTrim line).isEmpty
  · simp [hemp] at h
  · simp only [hemp, if_false, Bool.false_eq_true] at h
    split at h
    next hfind => simp at h
    next d m y rest hfind =>
      have hparts : amazonParts line = pySplitWs (strTrim (String.mk rest)) := by
        unfold amazonParts
        rw [hfind]
      split at h
      next hdate => simp at h
      next date hdate =>
        by_cases hlen : (pySplitWs (strTrim (String.mk rest))).length < 3
        · simp [hlen] at h
        · simp only [hlen, if_false] at h
          by_cases hser : pyIsDigit ((pySplitWs (strTrim (String.mk rest))).headD "") = false ∨
              ((pySplitWs (strTrim (String.mk rest))).headD "").length < 8
          · rw [if_pos hser] at h
            exact Option.noConfusion h
          · push_neg at hser
            refine ⟨?_, ?_, ?_, ?_⟩
            · unfold lineHasDateTok
              rw [hfind]
              rfl
            · rw [hparts]
              omega
            · unfold amazonSerNo
              rw [hparts]
              have h1 := hser.1
              cases hb : pyIsDigit ((pySplitWs (strTrim (String.mk rest))).headD "") with
              | false => exact absurd hb h1
              | true => rfl
            · unfold amazonSerNo
              rw [hparts]
              exact hser.2

/-- C5 witness: a concrete accepted line, with the acceptance conditions it
must therefore satisfy. -/
theorem c5_line_acceptance_witness :
    amazonLine "Amazon Pay" "15/10/2025 12158779277 IGST-CI@18% 0 31.59"
      = some { date := ⟨2025, 10, 15⟩, description := "IGST-CI@18%",
               amount := Rat.divInt 3159 100, bankName := "Amazon Pay" }
    ∧ (lineHasDateTok "15/10/2025 12158779277 IGST-CI@18% 0 31.59" = true
       ∧ 3 ≤ (amazonParts "15/10/2025 12158779277 IGST-CI@18% 0 31.59").length
       ∧ pyIsDigit (amazonSerNo "15/10/2025 12158779277 IGST-CI@18% 0 31.59") = true
       ∧ 8 ≤ (amazonSerNo "15/10/2025 12158779277 IGST-CI@18% 0 31.59").length) := by
  refine ⟨by decide, ?_⟩
  exact c5_line_acceptance.1 "Amazon Pay"
    "15/10/2025 12158779277 IGST-CI@18% 0 31.59"
    { date := ⟨2025, 10, 15⟩, description := "IGST-CI@18%",
      amount := Rat.divInt 3159 100, bankName := "Amazon Pay" } (by decide)

/-- C6 counterexample: two of the parsers return a normal empty result, not a
document-level error, when the document cannot be opened — the Amazon Pay
parser catches every exception (bad password included) and returns `[]`, and
the delimited parsers return `[]` for a missing file.  (Their Lean types are
error-free because the Python functions cannot propagate the failure.) -/
theorem c6_cex_open_error_swallowed :
    amazonStatement "Amazon Pay" (Except.error OpenError.badPassword) = []
    ∧ hdfcParseFile "HDFC Bank" none = []
    ∧ sbiParseFile "State Bank of India (SBI)" none = [] :=
  ⟨rfl, rfl, rfl⟩

/-- C6 amended: only the tabular-PDF parser (`hdfc_cred_bill`) propagates a
document-open failure to the caller; `amazon_pay_statement` swallows it and
returns the empty list, and both delimited parsers return the empty list when
the file is missing. -/
theorem c6_only_tabular_parser_raises :
    ∀ (e : OpenError) (bank : String),
      hdfcCredBill bank (Except.error e) = Except.error e
      ∧ amazonStatement bank (Except.error e) = []
      ∧ hdfcParseFile bank none = []
      ∧ sbiParseFile bank none = [] :=
  fun _ _ => ⟨rfl, rfl, rfl, rfl⟩

/-- C7: in every parser, one row/line on which the row-level function fails is
simply skipped: the document-level loop still yields exactly the candidates of
all rows before and after it. -/
theorem c7_malformed_row_skipped :
    (∀ (bank bad : String) (pre suf : List String), amazonLine bank bad = none →
      amazonLines bank (pre ++ bad :: suf) = amazonLines bank pre ++ amazonLines bank suf)
    ∧ (∀ (bank : String) (bad : List (Option String))
        (pre suf : List (List (Option String))), hdfcCredRow bank bad = none →
      hdfcCredRows bank (pre ++ bad :: suf) = hdfcCredRows bank pre ++ hdfcCredRows bank suf)
    ∧ (∀ (bank : String) (bad : CsvRow) (pre suf : List CsvRow), hdfcCsvRow bank bad = none →
      hdfcCsvRows bank (pre ++ bad :: suf) = hdfcCsvRows bank pre ++ hdfcCsvRows bank suf)
    ∧ (∀ (bank : String) (bad : CsvRow) (pre suf : List CsvRow), sbiCsvRow bank bad = none →
      sbiCsvRows bank (pre ++ bad :: suf) = sbiCsvRows bank pre ++ sbiCsvRows bank suf) := by
  refine ⟨?_, ?_, ?_, ?_⟩ <;> intro bank bad pre suf h <;> exact filterMap_skip _ _ _ _ h

/-- C7 witness: one malformed row between valid rows, for each of the four
parsers, leaves the valid rows' output intact. -/
theorem c7_malformed_row_skipped_witness :
    (amazonLine "Amazon Pay" "no transaction here" = none
     ∧ amazonLines "Amazon Pay"
         (["15/10/2025 12158779277 IGST-CI@18% 0 31.59"] ++ "no transaction here" :: [])
       = amazonLines "Amazon Pay" ["15/10/2025 12158779277 IGST-CI@18% 0 31.59"]
         ++ amazonLines "Amazon Pay" [])
    ∧ (hdfcCredRow "HDFC Credit Card" [some "random short"] = none
       ∧ hdfcCredRows "HDFC Credit Card"
           ([[some "27/10/2025| 03:46 SWIGGYBENGALURU + 4 C 384.00 l"]]
             ++ [some "random short"] :: [])
         = hdfcCredRows "HDFC Credit Card"
             [[some "27/10/2025| 03:46 SWIGGYBENGALURU + 4 C 384.00 l"]]
           ++ hdfcCredRows "HDFC Credit Card" [])
    ∧ (hdfcCsvRow "HDFC Bank" [("Date", "not a date")] = none
       ∧ hdfcCsvRows "HDFC Bank"
           ([[("Date", "15-10-2025"), ("Description", "CARD PAYMENT"), ("Debit", "500"),
              ("Credit", "")]] ++ [("Date", "not a date")] :: [])
         = hdfcCsvRows "HDFC Bank"
             [[("Date", "15-10-2025"), ("Description", "CARD PAYMENT"), ("Debit", "500"),
               ("Credit", "")]]
           ++ hdfcCsvRows "HDFC Bank" [])
    ∧ (sbiCsvRow "State Bank of India (SBI)" [("Txn Date", "not a date")] = none
       ∧ sbiCsvRows "State Bank of India (SBI)"
           ([[("Txn Date", "2025-10-15"), ("Details", "UPI"), ("Debit", ""),
              ("Credit", "100")]] ++ [("Txn Date", "not a date")] :: [])
         = sbiCsvRows "State Bank of India (SBI)"
             [[("Txn Date", "2025-10-15"), ("Details", "UPI"), ("Debit", ""),
               ("Credit", "100")]]
           ++ sbiCsvRows "State Bank of India (SBI)" []) := by
  refine ⟨⟨by decide, ?_⟩, ⟨by decide, ?_⟩, ⟨by decide, ?_⟩, ⟨by decide, ?_⟩⟩
  · exact c7_malformed_row_skipped.1 _ _ _ _ (by decide)
  · exact c7_malformed_row_skipped.2.1 _ _ _ _ (by decide)
  · exact c7_malformed_row_skipped.2.2.1 _ _ _ _ (by decide)
  · exact c7_malformed_row_skipped.2.2.2 _ _ _ _ (by decide)

/-- C8: with the configured dictionaries, the rule-based engine maps the
description "swiggy instamart order vegetables and milk" to merchant "Swiggy"
and category "Food and groceries". -/
theorem c8_swiggy_classification :
    extract_name "swiggy instamart order vegetables and milk" = "Swiggy"
    ∧ categorize_transaction
        (some (extract_name "swiggy instamart order vegetables and milk"))
        "swiggy instamart order vegetables and milk" = "Food and groceries" := by
  exact ⟨by decide, by decide⟩

/-- Example batch for the CSV-export claims. -/
def exportExampleItems : List ExpenseItem :=
  [{ date := ⟨2025, 10, 15⟩, description := "CARD PAYMENT", amount := 500,
     bankName := "HDFC Bank" }]

/-- C9 counterexample: exporting the same list to the same CSV path a second
time does not grow the file — `to_csv` opens the path in write mode, so the
second export leaves byte-identical contents of the same length. -/
theorem c9_cex_export_does_not_grow :
    writeExpensesConvert exportExampleItems (writeExpensesConvert exportExampleItems [])
      = writeExpensesConvert exportExampleItems []
    ∧ ¬ ((writeExpensesConvert exportExampleItems []).length
        < (writeExpensesConvert exportExampleItems
            (writeExpensesConvert exportExampleItems [])).length) := by
  refine ⟨rfl, ?_⟩
  exact Nat.lt_irrefl _

/-- C9 amended: the CSV export channel overwrites its target: the written
contents are independent of the prior file contents, and re-exporting the same
list is idempotent (in contrast to no channel of this code being
append-only). -/
theorem c9_export_overwrites :
    ∀ (items : List ExpenseItem) (p1 p2 : List (List String)),
      writeExpensesConvert items p1 = writeExpensesConvert items p2
      ∧ writeExpensesConvert items (writeExpensesConvert items p1)
        = writeExpensesConvert items p1 :=
  fun _ _ _ => ⟨rfl, rfl⟩

/-- C10: a page whose text does not match the transaction-header pattern
contributes zero candidates, whatever lines it contains. -/
theorem c10_header_gates_page (bank text : String) (h : hasHeader text = false) :
    amazonPage bank (some text) = [] := by
  show (if text.isEmpty = true then []
    else if hasHeader text = true then amazonLines bank (splitOnChar '\n' text) else []) = []
  rw [h]
  simp

/-- C10 witness: a page consisting of a single perfectly parseable transaction
line — but no header — yields no candidates, even though the line itself would
be accepted. -/
theorem c10_header_gates_page_witness :
    hasHeader "15/10/2025 12158779277 IGST-CI@18% 0 31.59" = false
    ∧ (amazonLine "Amazon Pay" "15/10/2025 12158779277 IGST-CI@18% 0 31.59").isSome = true
    ∧ amazonPage "Amazon Pay" (some "15/10/2025 12158779277 IGST-CI@18% 0 31.59") = [] := by
  refine ⟨by decide, by decide, ?_⟩
  exact c10_header_gates_page "Amazon Pay" _ (by decide)
